import Mathlib

/-!
Verification of the APOGEE + TESS variable-star characterization workflow
(notebooks/SDSS/APOGEE_TESS_tutorial/APOGEE_TESS_tutorial.ipynb).

The notebook's procedural core is embedded shallowly:
numeric arrays become `List ℚ`, arrays that may hold NaN become
`List (Option ℚ)` (`none` models NaN / a masked value), the numpy and
Python library calls the notebook relies on (`np.argmin`, `np.logspace`,
boolean-mask indexing, `np.nanmin`/`np.nanmax`, `int`, `range`, slicing
with step 10) are given their documented semantics as Lean functions, and
the two notebook functions `plot_spectrum_and_lc` and `plot_variable_star`
are translated with explicit error propagation (`Except`) for the indexing
and conversion operations that raise in Python.
-/

namespace MastNotebooks

/-! ### Library models -/

/-- Model of `np.argmin` on a list of rationals: the index of the first
occurrence of the minimum value (numpy returns the first occurrence on
ties).  On the empty list numpy raises; callers guard that case, and the
value `0` here is never used unguarded. -/
def argmin (l : List ℚ) : ℕ :=
  match l.min? with
  | none => 0
  | some m => l.findIdx (fun x => decide (x ≤ m))

/-- Model of `np.linspace start stop num` (endpoint included, the default). -/
def linspace (start stop : ℚ) (num : ℕ) : List ℚ :=
  if num = 0 then []
  else if num = 1 then [start]
  else (List.range num).map
    (fun i : ℕ => start + (stop - start) * (i : ℚ) / ((num : ℚ) - 1))

/-- Model of `np.logspace start stop num`: `10 ** linspace start stop num`.
Since `10 ^ q` is irrational for most rationals, base-10 exponentiation is
abstracted as a parameter `pow10`; every property proved below holds for
any strictly monotone choice of `pow10`, in particular the real function
`fun x => 10 ^ x`. -/
def logspace (pow10 : ℚ → ℚ) (start stop : ℚ) (num : ℕ) : List ℚ :=
  (linspace start stop num).map pow10

/-- The wavelength grid of the spectrum panel, from the notebook cell
`apogee_wls = np.logspace(CRVAL1, CRVAL1 + CDELT1*NAXIS1, NAXIS1)`.
(The notebook reads `NAXIS1` once from HDU3 and once from HDU1 of the same
file; both hold the pixel count of the same spectrum, modelled as the
single argument `naxis1`.) -/
def apogee_wls_of (pow10 : ℚ → ℚ) (crval1 cdelt1 : ℚ) (naxis1 : ℕ) : List ℚ :=
  logspace pow10 crval1 (crval1 + cdelt1 * naxis1) naxis1

/-- The boolean pixel mask `(err < 0.1)` from the spectrum panel. -/
def pixel_mask (err : List ℚ) : List Bool :=
  err.map (fun e => decide (e < 1/10))

/-- Model of numpy boolean-mask indexing `xs[mask]` (arrays of equal
length): keep exactly the entries at positions where the mask is true. -/
def maskApply {α : Type} : List Bool → List α → List α
  | true :: bs, x :: xs => x :: maskApply bs xs
  | false :: bs, _ :: xs => maskApply bs xs
  | _, _ => []

/-- The positions that survive the pixel mask. -/
def plottedIndices (err : List ℚ) : List ℕ :=
  maskApply (pixel_mask err) (List.range err.length)

/-- Model of `np.nanmin`: minimum over the defined (non-NaN) entries,
`none` when every entry is NaN. -/
def nanmin (l : List (Option ℚ)) : Option ℚ :=
  (l.filterMap id).min?

/-- Model of `np.nanmax`: maximum over the defined (non-NaN) entries. -/
def nanmax (l : List (Option ℚ)) : Option ℚ :=
  (l.filterMap id).max?

/-- Model of Python `int(q)`: truncation toward zero. -/
def pyInt (q : ℚ) : ℤ :=
  if 0 ≤ q then q.floor else q.ceil

/-- Model of Python `range(a, b)` over integers. -/
def intRange (a b : ℤ) : List ℤ :=
  (List.range (b - a).toNat).map (fun i => a + (i : ℤ))

/-- The day gridlines of the light-curve panel:
`range(int(np.nanmin(TIME)), int(np.nanmax(TIME)))`. -/
def dayGridlines (times : List (Option ℚ)) : List ℤ :=
  match nanmin times, nanmax times with
  | some a, some b => intRange (pyInt a) (pyInt b)
  | _, _ => []

/-- Helper for the slice model: `skip` elements remain to be skipped
before the next one is kept, after which 9 more are skipped. -/
def every10Aux {α : Type} : ℕ → List α → List α
  | _, [] => []
  | 0, x :: xs => x :: every10Aux 9 xs
  | n + 1, _ :: xs => every10Aux n xs

/-- Model of the slice `l[::10]`: every tenth element, starting at 0. -/
def every10 {α : Type} (l : List α) : List α :=
  every10Aux 0 l

/-- Model of `np.where(column == s)[0]`: the list of indices whose entry
equals `s`, in increasing order. -/
def whereEq (l : List String) (s : String) : List ℕ :=
  (List.range l.length).filter (fun i => l.getD i "" == s)

/-- Python truthiness of a possibly-masked float column entry: a masked
value (`numpy.ma.masked`, here `none`) is falsy, a float is falsy exactly
when it is `0.0`. -/
def truthy : Option ℚ → Bool
  | none => false
  | some v => decide (v ≠ 0)

/-- Substring test on character lists (used to state whether an error
message mentions an identifier). -/
def startsWithL : List Char → List Char → Bool
  | [], _ => true
  | _ :: _, [] => false
  | a :: as, b :: bs => a == b && startsWithL as bs

/-- Whether `needle` occurs as a contiguous substring of `hay`. -/
def containsL (needle : List Char) : List Char → Bool
  | [] => startsWithL needle []
  | c :: rest => startsWithL needle (c :: rest) || containsL needle rest

/-! ### Data model -/

/-- One row of the `allStar` catalog table (`Table.read` of the allStar
FITS file): the columns the notebook uses.  Calibrated parameters read
from a FITS float column can be masked (invalid/missing), modelled by
`none`. -/
structure AllStarEntry where
  apogee_id : String
  teff : Option ℚ
  logg : Option ℚ
  fe_h : Option ℚ
deriving DecidableEq

def defaultEntry : AllStarEntry := ⟨"", none, none, none⟩

/-- The parts of an opened `aspcapStar` FITS file that the notebook reads:
header scalars of the wavelength solution, the three data arrays, and the
single-row HDU4 table (`APOGEE_ID` string, `FPARAM` uncalibrated
pipeline-fit parameter vector). -/
structure ApogeeSpec where
  crval1 : ℚ
  cdelt1 : ℚ
  naxis1 : ℕ
  observed_flux : List ℚ
  err : List ℚ
  model_flux : List ℚ
  apogee_id : String
  fparam : List ℚ
deriving DecidableEq

/-- The parts of an opened TESS light-curve FITS file that the notebook
reads: the primary-header `OBJECT` name and the `TIME` / `SAP_FLUX`
columns of the `LIGHTCURVE` extension (entries may be NaN). -/
structure TessLC where
  object : String
  time : List (Option ℚ)
  sap_flux : List (Option ℚ)
deriving DecidableEq

/-- One row of a TESS coordinate-search result table: the notebook only
reads the `distance` column (arcseconds from the cone-search center). -/
structure TessObsRecord where
  obs_id : String
  distance : ℚ
deriving DecidableEq

instance : Inhabited TessObsRecord := ⟨⟨"", 0⟩⟩

/-- One row of an APOGEE observation-search result table: the notebook
reads the `s_ra` and `s_dec` columns of the first row. -/
structure ObsRecord where
  s_ra : ℚ
  s_dec : ℚ
deriving DecidableEq

/-- One row of a download manifest: the notebook reads `Local Path`. -/
structure ManifestEntry where
  local_path : String
deriving DecidableEq

/-- Python exceptions raised by the embedded operations. -/
inductive PyError where
  | indexError : String → PyError
  | valueError : String → PyError
deriving DecidableEq

/-- The composite figure assembled by `plot_spectrum_and_lc`, recorded as
data: the scatter input of the population panel with its fixed color
limits, the target-star overlay point and whether the quality warning was
printed, the three masked series of the spectrum panel, the three panel
titles, the day gridlines of the light-curve panel, and the filename
passed to `savefig`. -/
structure Figure where
  popPoints : List (Option ℚ × Option ℚ × Option ℚ)
  popVmin : ℚ
  popVmax : ℚ
  warning : Bool
  target : Option ℚ × Option ℚ × Option ℚ
  specX : List ℚ
  specObs : List ℚ
  specModel : List ℚ
  title1 : String
  title2 : String
  title3 : String
  gridlines : List ℤ
  save_name : String
deriving DecidableEq

/-! ### The notebook functions -/

/-- The population-panel scatter input: the notebook plots
`allstar['TEFF'][::10]` against `allstar['LOGG'][::10]` colored by
`allstar['FE_H'][::10]`. -/
def popPanelPoints (allstar : List AllStarEntry) : List (Option ℚ × Option ℚ × Option ℚ) :=
  (every10 allstar).map (fun e => (e.teff, e.logg, e.fe_h))

/-- The target-star overlay of the population panel, given the index
`indx` found for the target in the catalog: if `allstar['TEFF'][indx]` is
truthy the calibrated catalog parameters are plotted, otherwise a quality
warning is printed and the uncalibrated `FPARAM[0][0]`, `FPARAM[0][1]`,
`FPARAM[0][3]` values from the spectrum file are plotted.  Returns
(warning printed, plotted point). -/
def targetPoint (allstar : List AllStarEntry) (spec : ApogeeSpec) (indx : ℕ) :
    Bool × (Option ℚ × Option ℚ × Option ℚ) :=
  let e := allstar.getD indx defaultEntry
  if truthy e.teff then
    (false, (e.teff, e.logg, e.fe_h))
  else
    (true, (some (spec.fparam.getD 0 0), some (spec.fparam.getD 1 0),
            some (spec.fparam.getD 3 0)))

/-- Embedding of the notebook function `plot_spectrum_and_lc`.  Failure
points, in source order: the target lookup
`np.where(allstar['APOGEE_ID'] == ...)[0][0]` raises `IndexError` when the
identifier is absent from the catalog (before anything is drawn or
saved), and `int(np.nanmin(TIME))` raises `ValueError` when every `TIME`
sample is NaN.  `savefig` is the last statement of the source function, so
an error means no artifact file is written. -/
def plot_spectrum_and_lc (allstar : List AllStarEntry) (apogee_wls : List ℚ)
    (spec : ApogeeSpec) (lc : TessLC) : Except PyError Figure :=
  match whereEq (allstar.map (fun e => e.apogee_id)) spec.apogee_id with
  | [] => .error (.indexError "index 0 is out of bounds for axis 0 with size 0")
  | indx :: _ =>
    match nanmin lc.time, nanmax lc.time with
    | some tmin, some tmax =>
      .ok
        { popPoints := popPanelPoints allstar
          popVmin := -1
          popVmax := 1/2
          warning := (targetPoint allstar spec indx).1
          target := (targetPoint allstar spec indx).2
          specX := maskApply (pixel_mask spec.err) apogee_wls
          specObs := maskApply (pixel_mask spec.err) spec.observed_flux
          specModel := maskApply (pixel_mask spec.err) spec.model_flux
          title1 := "APOGEE Stellar Parameters - allStar"
          title2 := "APOGEE Spectrum - " ++ spec.apogee_id
          title3 := "TESS-SPOC Light Curve - " ++ lc.object
          gridlines := intRange (pyInt tmin) (pyInt tmax)
          save_name := spec.apogee_id ++ "_APOGEE_spec_TESS_lightcurve.png" }
    | _, _ => .error (.valueError "cannot convert float NaN to integer")

/-- The external collaborators of `plot_variable_star` (astroquery calls
and FITS readers), passed as oracles; plus the notebook globals `allstar`
and `apogee_wls` that the plotting helper reads. -/
structure Oracle where
  apogee_query : String → List ObsRecord
  apogee_products : List ObsRecord → List ManifestEntry
  open_aspcap : String → ApogeeSpec
  tess_query : ℚ → ℚ → List TessObsRecord
  tess_products : TessObsRecord → List ManifestEntry
  open_lc : String → TessLC
  allstar : List AllStarEntry
  apogee_wls : List ℚ

/-- Embedding of the notebook function `plot_variable_star`.  In source
order: query APOGEE observations, download and open the spectrum
(`manifest['Local Path'][0]` raises `IndexError` on an empty manifest),
read the coordinates from the first observation row
(`apogee_obs_list['s_ra'][0]` raises `IndexError` on an empty result),
query TESS observations at those coordinates, pick
`tess_obs[np.argmin(tess_obs['distance'])]` (`np.argmin` raises
`ValueError` on an empty result), download and open the light curve, and
finally call `plot_spectrum_and_lc`.  The product-list and download steps
are fused into the `apogee_products` / `tess_products` oracles. -/
def plot_variable_star (o : Oracle) (apogee_id : String) : Except PyError Figure :=
  match o.apogee_products (o.apogee_query apogee_id) with
  | [] => .error (.indexError "index 0 is out of bounds for axis 0 with size 0")
  | m0 :: _ =>
    match o.apogee_query apogee_id with
    | [] => .error (.indexError "index 0 is out of bounds for axis 0 with size 0")
    | obs0 :: _ =>
      match o.tess_query obs0.s_ra obs0.s_dec with
      | [] => .error (.valueError "attempt to get argmin of an empty sequence")
      | t :: ts =>
        match o.tess_products
            ((t :: ts).getD (argmin ((t :: ts).map (fun r => r.distance))) default) with
        | [] => .error (.indexError "index 0 is out of bounds for axis 0 with size 0")
        | l0 :: _ =>
          plot_spectrum_and_lc o.allstar o.apogee_wls (o.open_aspcap m0.local_path)
            (o.open_lc l0.local_path)

/-- The artifact files written by a run: `savefig(save_name)` is executed
exactly once, as the final step of a successful `plot_spectrum_and_lc`. -/
def artifacts_written (r : Except PyError Figure) : List String :=
  match r with
  | .ok fig => [fig.save_name]
  | .error _ => []

/-! ### Concrete inputs used to instantiate the theorems -/

def defFig : Figure :=
  { popPoints := [], popVmin := 0, popVmax := 0, warning := false
    target := (none, none, none), specX := [], specObs := [], specModel := []
    title1 := "", title2 := "", title3 := "", gridlines := [], save_name := "" }

/-- Extract the figure of a successful run (`defFig` is never reached in
the places this is used). -/
def getFig (r : Except PyError Figure) : Figure :=
  r.toOption.getD defFig

def allstarW : List AllStarEntry :=
  [⟨"V1154_Cyg", some 6000, some 2, some (-1/10)⟩]

def allstar2 : List AllStarEntry :=
  [⟨"V1154_Cyg", some 6000, some 2, some (-1/10)⟩,
   ⟨"2M19223768+5044541", some 4800, some 3, some (1/5)⟩]

def allstarInvalid : List AllStarEntry :=
  [⟨"V1154_Cyg", none, some 2, some 1⟩]

def specW : ApogeeSpec :=
  { crval1 := 4, cdelt1 := 1/2, naxis1 := 2
    observed_flux := [1, 1], err := [0, 1], model_flux := [1, 1]
    apogee_id := "V1154_Cyg", fparam := [5000, 3, 0, -1/2] }

def lcW : TessLC :=
  { object := "TIC 123", time := [some (3/2), none, some (7/2)]
    sap_flux := [some 1, some 1, some 1] }

def wlsW : List ℚ := [15100, 15200]

def runW : Except PyError Figure := plot_spectrum_and_lc allstarW wlsW specW lcW

def runCE6 : Except PyError Figure := plot_spectrum_and_lc allstar2 wlsW specW lcW

def runInvalid : Except PyError Figure :=
  plot_spectrum_and_lc allstarInvalid wlsW specW lcW

/-- A spectrum dataset whose star does not occur in `allstarW`. -/
def specMissing : ApogeeSpec :=
  { crval1 := 4, cdelt1 := 1/2, naxis1 := 2
    observed_flux := [1, 1], err := [0, 1], model_flux := [1, 1]
    apogee_id := "2M00000000+0000000", fparam := [5000, 3, 0, -1/2] }

def recordsW : List TessObsRecord :=
  [⟨"obs-a", 3⟩, ⟨"obs-b", 1⟩, ⟨"obs-c", 1⟩]

/-- An oracle whose TESS coordinate query returns zero rows. -/
def oracleCE : Oracle :=
  { apogee_query := fun _ => [⟨1, 2⟩]
    apogee_products := fun _ => [⟨"mastDownload/aspcapStar-dr17-V1154_Cyg.fits"⟩]
    open_aspcap := fun _ => specW
    tess_query := fun _ _ => []
    tess_products := fun _ => []
    open_lc := fun _ => lcW
    allstar := allstarW
    apogee_wls := wlsW }

/-! ### Helper lemmas -/

/-- `argmin` on a non-empty list is a valid index, the value there is a
minimum, and every earlier entry is strictly larger (first occurrence). -/
theorem argmin_spec {l : List ℚ} (h : l ≠ []) :
    ∃ hlen : argmin l < l.length,
      (∀ j, ∀ hj : j < l.length, l[argmin l] ≤ l[j]) ∧
      (∀ j, ∀ hj : j < l.length, j < argmin l → l[argmin l] < l[j]) := by
  cases hmin : l.min? with
  | none => exact absurd (List.min?_eq_none_iff.mp hmin) h
  | some m =>
    have hmem : m ∈ l := List.min?_mem (fun a b => min_choice a b) hmin
    have hle : ∀ b ∈ l, m ≤ b :=
      (List.le_min?_iff (fun _ _ _ => le_min_iff) hmin).mp le_rfl
    have hidx : argmin l = l.findIdx (fun x => decide (x ≤ m)) := by
      simp [argmin, hmin]
    rw [hidx]
    have hlen : l.findIdx (fun x => decide (x ≤ m)) < l.length :=
      List.findIdx_lt_length_of_exists ⟨m, hmem, by simp⟩
    refine ⟨hlen, ?_, ?_⟩
    · intro j hj
      have hpi : l[l.findIdx (fun x => decide (x ≤ m))] ≤ m := by
        have := @List.findIdx_getElem ℚ (fun x => decide (x ≤ m)) l hlen
        exact of_decide_eq_true this
      exact le_trans hpi (hle _ (List.getElem_mem hj))
    · intro j hj hji
      have hpi : l[l.findIdx (fun x => decide (x ≤ m))] ≤ m := by
        have := @List.findIdx_getElem ℚ (fun x => decide (x ≤ m)) l hlen
        exact of_decide_eq_true this
      have heq : l[l.findIdx (fun x => decide (x ≤ m))] = m :=
        le_antisymm hpi (hle _ (List.getElem_mem hlen))
      have hj_false := List.not_of_lt_findIdx (p := fun x => decide (x ≤ m)) hji
      have : ¬ (l[j] ≤ m) := by
        intro hcon
        simp [hcon] at hj_false
      rw [heq]
      exact lt_of_not_le this

/-- C1: for every non-empty list of candidate time-series observations
with a distance per record, `tess_obs[np.argmin(tess_obs[distance])]` is a
valid selection whose distance is a minimum over all records, and every
record before the selected index has strictly larger distance, so ties at
the minimum (including distance 0) resolve to the first record in input
order. -/
theorem closest_match_selects_first_minimum (records : List TessObsRecord)
    (h : records ≠ []) :
    argmin (records.map (fun r => r.distance)) < records.length ∧
    (∀ r ∈ records,
      (records.getD (argmin (records.map (fun r => r.distance))) default).distance
        ≤ r.distance) ∧
    (∀ j, j < argmin (records.map (fun r => r.distance)) →
      (records.getD (argmin (records.map (fun r => r.distance))) default).distance
        < (records.getD j default).distance) := by
  set l := records.map (fun r => r.distance) with hl
  have hlne : l ≠ [] := by
    simp [hl, List.map_eq_nil_iff]
    intro hc
    exact h hc
  obtain ⟨hlen, hmin, hfirst⟩ := argmin_spec hlne
  have hlenl : l.length = records.length := by simp [hl]
  have hlen' : argmin l < records.length := hlenl ▸ hlen
  have hsel : (records.getD (argmin l) default).distance = l[argmin l] := by
    rw [List.getD_eq_getElem records default hlen']
    simp [hl]
  refine ⟨hlen', ?_, ?_⟩
  · intro r hr
    obtain ⟨j, hj, hjr⟩ := List.getElem_of_mem hr
    have hjl : j < l.length := hlenl ▸ hj
    have : l[j] = r.distance := by
      simp [hl, hjr]
    rw [hsel, ← this]
    exact hmin j hjl
  · intro j hji
    have hj : j < records.length := lt_trans hji hlen'
    have hjl : j < l.length := hlenl ▸ hj
    have hgd : (records.getD j default).distance = l[j] := by
      rw [List.getD_eq_getElem records default hj]
      simp [hl]
    rw [hsel, hgd]
    exact hfirst j (hlenl ▸ hj) hji

/-- Witness for C1 at a concrete record list with a tie at the minimum. -/
theorem closest_match_selects_first_minimum_witness :
    recordsW ≠ [] ∧
    (argmin (recordsW.map (fun r => r.distance)) < recordsW.length ∧
    (∀ r ∈ recordsW,
      (recordsW.getD (argmin (recordsW.map (fun r => r.distance))) default).distance
        ≤ r.distance) ∧
    (∀ j, j < argmin (recordsW.map (fun r => r.distance)) →
      (recordsW.getD (argmin (recordsW.map (fun r => r.distance))) default).distance
        < (recordsW.getD j default).distance)) :=
  ⟨by decide, closest_match_selects_first_minimum recordsW (by decide)⟩

theorem linspace_length (s t : ℚ) (n : ℕ) : (linspace s t n).length = n := by
  rcases n with _ | _ | n <;> simp [linspace]

theorem linspace_chain' {s t : ℚ} {n : ℕ} (h : 2 ≤ n → s < t) :
    (linspace s t n).Chain' (· < ·) := by
  match n with
  | 0 => simp [linspace]
  | 1 => simp [linspace]
  | (k + 2) =>
    have hst : s < t := h (by omega)
    unfold linspace
    rw [if_neg (by omega), if_neg (by omega)]
    rw [List.chain'_map]
    rw [show k + 2 = (k + 1) + 1 from rfl, List.chain'_range_succ]
    intro m hm
    have hden : (0:ℚ) < ((k:ℚ) + 2) - 1 := by
      have : (0:ℚ) ≤ (k:ℚ) := Nat.cast_nonneg k
      linarith
    have hnum : (t - s) * (m:ℚ) < (t - s) * ((m:ℚ) + 1) := by
      have h1 : (0:ℚ) < t - s := by linarith
      nlinarith
    have hcast : ((k + 2 : ℕ) : ℚ) = (k:ℚ) + 2 := by push_cast; ring
    have hmc : ((m + 1 : ℕ) : ℚ) = (m:ℚ) + 1 := by push_cast; ring
    rw [hcast, hmc]
    gcongr

/-- C2: for every wavelength header triplet (CRVAL1, CDELT1, NAXIS1) with
positive log step CDELT1, the derived wavelength array
`np.logspace(CRVAL1, CRVAL1 + CDELT1*NAXIS1, NAXIS1)` has exactly NAXIS1
elements and is strictly monotonically increasing, for every strictly
monotone model `pow10` of base-10 exponentiation. -/
theorem apogee_wls_length_strictMono (crval1 cdelt1 : ℚ) (naxis1 : ℕ)
    (hstep : 0 < cdelt1) (pow10 : ℚ → ℚ) (hmono : StrictMono pow10) :
    (apogee_wls_of pow10 crval1 cdelt1 naxis1).length = naxis1 ∧
    (apogee_wls_of pow10 crval1 cdelt1 naxis1).Chain' (· < ·) := by
  constructor
  · simp [apogee_wls_of, logspace, linspace_length]
  · unfold apogee_wls_of logspace
    rw [List.chain'_map]
    have hchain : (linspace crval1 (crval1 + cdelt1 * naxis1) naxis1).Chain' (· < ·) := by
      apply linspace_chain'
      intro h2
      have hpos : (0:ℚ) < (naxis1:ℚ) := by
        have : (2:ℚ) ≤ (naxis1:ℚ) := by exact_mod_cast h2
        linarith
      nlinarith
    exact hchain.imp (fun a b hab => hmono hab)

/-- Witness for C2 at CRVAL1 = 4, CDELT1 = 1/2, NAXIS1 = 3, with the
identity as the strictly monotone stand-in for base-10 exponentiation. -/
theorem apogee_wls_length_strictMono_witness :
    (0:ℚ) < 1/2 ∧ StrictMono (fun x : ℚ => x) ∧
    ((apogee_wls_of (fun x : ℚ => x) 4 (1/2) 3).length = 3 ∧
     (apogee_wls_of (fun x : ℚ => x) 4 (1/2) 3).Chain' (· < ·)) :=
  ⟨by norm_num, fun _ _ h => h,
   apogee_wls_length_strictMono 4 (1/2) 3 (by norm_num) (fun x : ℚ => x)
     (fun _ _ h => h)⟩

theorem maskApply_nil_mask {α : Type} (xs : List α) : maskApply [] xs = [] := by
  cases xs <;> rfl

theorem maskApply_map {α β : Type} (bs : List Bool) (xs : List α) (f : α → β) :
    maskApply bs (xs.map f) = (maskApply bs xs).map f := by
  induction bs generalizing xs with
  | nil => cases xs <;> simp [maskApply]
  | cons b bs ih =>
    cases xs with
    | nil => cases b <;> simp [maskApply]
    | cons x xs => cases b <;> simp [maskApply, ih]

theorem maskApply_pixel_mask_length {α : Type} (err : List ℚ) (xs : List α)
    (h : xs.length = err.length) :
    (maskApply (pixel_mask err) xs).length = err.countP (fun e => decide (e < 1/10)) := by
  induction err generalizing xs with
  | nil =>
    simp [pixel_mask, maskApply_nil_mask]
  | cons e es ih =>
    cases xs with
    | nil => simp at h
    | cons x xs =>
      have h' : xs.length = es.length := by simpa using h
      by_cases he : e < 1/10
      · rw [show pixel_mask (e :: es) = true :: pixel_mask es by
          unfold pixel_mask; rw [List.map_cons, decide_eq_true he]]
        show (x :: maskApply (pixel_mask es) xs).length = _
        rw [List.length_cons, List.countP_cons, ih xs h',
          if_pos (decide_eq_true he)]
      · rw [show pixel_mask (e :: es) = false :: pixel_mask es by
          unfold pixel_mask; rw [List.map_cons, decide_eq_false he]]
        show (maskApply (pixel_mask es) xs).length = _
        rw [List.countP_cons, ih xs h', decide_eq_false he]
        simp

theorem plottedIndices_eq_filter (err : List ℚ) :
    plottedIndices err =
      (List.range err.length).filter (fun i => decide (err.getD i 0 < 1/10)) := by
  induction err with
  | nil => rfl
  | cons e es ih =>
    unfold plottedIndices at ih ⊢
    simp only [pixel_mask, List.map_cons] at ih ⊢
    rw [List.length_cons, List.range_succ_eq_map]
    by_cases he : e < 1/10
    · rw [decide_eq_true he, List.filter_cons_of_pos (by simpa using he)]
      show 0 :: maskApply (List.map (fun e => decide (e < 1/10)) es)
          (List.map Nat.succ (List.range es.length)) = _
      rw [maskApply_map, List.filter_map, ih]
      refine congrArg (fun l => 0 :: List.map Nat.succ l) (List.filter_congr ?_)
      intro i _
      simp [Function.comp, List.getD_cons_succ]
    · rw [decide_eq_false he, List.filter_cons_of_neg (by simpa using he)]
      show maskApply (List.map (fun e => decide (e < 1/10)) es)
          (List.map Nat.succ (List.range es.length)) = _
      rw [maskApply_map, List.filter_map, ih]
      refine congrArg (List.map Nat.succ) (List.filter_congr ?_)
      intro i _
      simp [Function.comp, List.getD_cons_succ]

/-- C3: the spectrum panel mask `(err < 0.1)` keeps exactly the pixels
with uncertainty strictly below 1/10: both plotted series (observed and
model flux, each of the arrays having one entry per pixel of the error
array) have length equal to the count of such pixels, the surviving pixel
positions are exactly the positions whose uncertainty is below the
threshold, and no position at or above the threshold appears. -/
theorem pixel_mask_keeps_below_threshold (err obs model : List ℚ)
    (hobs : obs.length = err.length) (hmodel : model.length = err.length) :
    (maskApply (pixel_mask err) obs).length = err.countP (fun e => decide (e < 1/10)) ∧
    (maskApply (pixel_mask err) model).length = err.countP (fun e => decide (e < 1/10)) ∧
    plottedIndices err =
      (List.range err.length).filter (fun i => decide (err.getD i 0 < 1/10)) ∧
    (∀ i ∈ plottedIndices err, err.getD i 0 < 1/10) := by
  refine ⟨maskApply_pixel_mask_length err obs hobs,
    maskApply_pixel_mask_length err model hmodel,
    plottedIndices_eq_filter err, ?_⟩
  intro i hi
  rw [plottedIndices_eq_filter err] at hi
  have := List.of_mem_filter hi
  simpa using this

/-- Witness for C3 at a concrete error array with pixels on both sides of
the threshold. -/
theorem pixel_mask_keeps_below_threshold_witness :
    ([(1:ℚ), 2, 3].length = [(0:ℚ), 1/5, 1/100].length) ∧
    ([(4:ℚ), 5, 6].length = [(0:ℚ), 1/5, 1/100].length) ∧
    ((maskApply (pixel_mask [(0:ℚ), 1/5, 1/100]) [(1:ℚ), 2, 3]).length
        = [(0:ℚ), 1/5, 1/100].countP (fun e => decide (e < 1/10)) ∧
     (maskApply (pixel_mask [(0:ℚ), 1/5, 1/100]) [(4:ℚ), 5, 6]).length
        = [(0:ℚ), 1/5, 1/100].countP (fun e => decide (e < 1/10)) ∧
     plottedIndices [(0:ℚ), 1/5, 1/100] =
       (List.range ([(0:ℚ), 1/5, 1/100]).length).filter
         (fun i => decide (([(0:ℚ), 1/5, 1/100]).getD i 0 < 1/10)) ∧
     (∀ i ∈ plottedIndices [(0:ℚ), 1/5, 1/100],
       ([(0:ℚ), 1/5, 1/100]).getD i 0 < 1/10)) :=
  ⟨by decide, by decide,
   pixel_mask_keeps_below_threshold [(0:ℚ), 1/5, 1/100] [(1:ℚ), 2, 3] [(4:ℚ), 5, 6]
     (by decide) (by decide)⟩

/-- C7: for every light-curve time array with at least one defined
sample, `np.nanmin`/`np.nanmax` as used by the light-curve panel produce
bounds that are attained by defined samples and bracket every defined
sample, and the day gridlines computed from them are identical to the
gridlines computed from the array with the undefined (NaN) samples
removed: the range computation is not corrupted by NaN. -/
theorem gridlines_ignore_nan (times : List (Option ℚ))
    (h : times.filterMap id ≠ []) :
    ∃ a b, nanmin times = some a ∧ nanmax times = some b ∧
      a ∈ times.filterMap id ∧ b ∈ times.filterMap id ∧
      (∀ x ∈ times.filterMap id, a ≤ x ∧ x ≤ b) ∧
      dayGridlines times = dayGridlines ((times.filterMap id).map some) := by
  cases hmin : (times.filterMap id).min? with
  | none => exact absurd (List.min?_eq_none_iff.mp hmin) h
  | some a =>
  cases hmax : (times.filterMap id).max? with
  | none => exact absurd (List.max?_eq_none_iff.mp hmax) h
  | some b =>
  have hfm : ((times.filterMap id).map some).filterMap id = times.filterMap id := by
    rw [List.filterMap_map]
    simp
  refine ⟨a, b, hmin, hmax, List.min?_mem (fun x y => min_choice x y) hmin,
    List.max?_mem (fun x y => max_choice x y) hmax, ?_, ?_⟩
  · intro x hx
    exact ⟨(List.le_min?_iff (fun _ _ _ => le_min_iff) hmin).mp le_rfl x hx,
      (List.max?_le_iff (fun _ _ _ => max_le_iff) hmax).mp le_rfl x hx⟩
  · unfold dayGridlines nanmin nanmax
    rw [hfm, hmin, hmax]

/-- Witness for C7 at the concrete time array with a NaN gap. -/
theorem gridlines_ignore_nan_witness :
    lcW.time.filterMap id ≠ [] ∧
    (∃ a b, nanmin lcW.time = some a ∧ nanmax lcW.time = some b ∧
      a ∈ lcW.time.filterMap id ∧ b ∈ lcW.time.filterMap id ∧
      (∀ x ∈ lcW.time.filterMap id, a ≤ x ∧ x ≤ b) ∧
      dayGridlines lcW.time = dayGridlines ((lcW.time.filterMap id).map some)) :=
  ⟨by decide, gridlines_ignore_nan lcW.time (by decide)⟩

theorem whereEq_eq_nil {l : List String} {s : String} (h : s ∉ l) :
    whereEq l s = [] := by
  unfold whereEq
  rw [List.filter_eq_nil_iff]
  intro i hi
  simp only [List.mem_range] at hi
  intro hcon
  apply h
  have heq : l.getD i "" = s := by simpa using hcon
  rw [← heq, List.getD_eq_getElem l "" hi]
  exact List.getElem_mem hi

/-- The figure assembled on the success path, as a function of the found
catalog index and the light-curve time bounds. -/
def mkFigure (allstar : List AllStarEntry) (apogee_wls : List ℚ) (spec : ApogeeSpec)
    (lc : TessLC) (indx : ℕ) (tmin tmax : ℚ) : Figure :=
  { popPoints := popPanelPoints allstar
    popVmin := -1
    popVmax := 1/2
    warning := (targetPoint allstar spec indx).1
    target := (targetPoint allstar spec indx).2
    specX := maskApply (pixel_mask spec.err) apogee_wls
    specObs := maskApply (pixel_mask spec.err) spec.observed_flux
    specModel := maskApply (pixel_mask spec.err) spec.model_flux
    title1 := "APOGEE Stellar Parameters - allStar"
    title2 := "APOGEE Spectrum - " ++ spec.apogee_id
    title3 := "TESS-SPOC Light Curve - " ++ lc.object
    gridlines := intRange (pyInt tmin) (pyInt tmax)
    save_name := spec.apogee_id ++ "_APOGEE_spec_TESS_lightcurve.png" }

theorem plot_spectrum_ok (allstar : List AllStarEntry) (wls : List ℚ)
    (spec : ApogeeSpec) (lc : TessLC) {indx : ℕ} {rest : List ℕ} {a b : ℚ}
    (hfind : whereEq (allstar.map (fun e => e.apogee_id)) spec.apogee_id = indx :: rest)
    (hmin : (lc.time.filterMap id).min? = some a)
    (hmax : (lc.time.filterMap id).max? = some b) :
    plot_spectrum_and_lc allstar wls spec lc = .ok (mkFigure allstar wls spec lc indx a b) := by
  unfold plot_spectrum_and_lc nanmin nanmax
  rw [hfind, hmin, hmax]
  rfl

theorem plot_spectrum_ok_inv (allstar : List AllStarEntry) (wls : List ℚ)
    (spec : ApogeeSpec) (lc : TessLC) (fig : Figure)
    (h : plot_spectrum_and_lc allstar wls spec lc = .ok fig) :
    ∃ indx rest a b,
      whereEq (allstar.map (fun e => e.apogee_id)) spec.apogee_id = indx :: rest ∧
      nanmin lc.time = some a ∧ nanmax lc.time = some b ∧
      fig = mkFigure allstar wls spec lc indx a b := by
  cases hw : whereEq (allstar.map (fun e => e.apogee_id)) spec.apogee_id with
  | nil =>
    unfold plot_spectrum_and_lc at h
    rw [hw] at h
    exact absurd h (by simp)
  | cons indx rest =>
    cases hmn : nanmin lc.time with
    | none =>
      cases hmx : nanmax lc.time with
      | none =>
        unfold plot_spectrum_and_lc at h
        rw [hw, hmn, hmx] at h
        exact absurd h (by simp)
      | some b =>
        unfold plot_spectrum_and_lc at h
        rw [hw, hmn, hmx] at h
        exact absurd h (by simp)
    | some a =>
      cases hmx : nanmax lc.time with
      | none =>
        unfold plot_spectrum_and_lc at h
        rw [hw, hmn, hmx] at h
        exact absurd h (by simp)
      | some b =>
        refine ⟨indx, rest, a, b, rfl, rfl, rfl, ?_⟩
        unfold plot_spectrum_and_lc at h
        rw [hw, hmn, hmx] at h
        exact (Except.ok.inj h).symm

/-- C10: for every spectrum dataset whose APOGEE identifier does not
occur in the loaded population catalog, the composite plot builder fails
with the out-of-bounds IndexError of
`np.where(allstar[APOGEE_ID] == id)[0][0]` before anything is drawn, and
no artifact file is written: the builder is total only under the unstated
precondition that the target star is present in the catalog. -/
theorem missing_star_index_error (allstar : List AllStarEntry) (wls : List ℚ)
    (spec : ApogeeSpec) (lc : TessLC)
    (h : spec.apogee_id ∉ allstar.map (fun e => e.apogee_id)) :
    plot_spectrum_and_lc allstar wls spec lc =
      .error (.indexError "index 0 is out of bounds for axis 0 with size 0") ∧
    artifacts_written (plot_spectrum_and_lc allstar wls spec lc) = [] := by
  have hw : whereEq (allstar.map (fun e => e.apogee_id)) spec.apogee_id = [] :=
    whereEq_eq_nil h
  constructor
  · unfold plot_spectrum_and_lc
    rw [hw]
  · unfold artifacts_written plot_spectrum_and_lc
    rw [hw]

/-- Witness for C10 at a concrete catalog missing the target star. -/
theorem missing_star_index_error_witness :
    specMissing.apogee_id ∉ allstarW.map (fun e => e.apogee_id) ∧
    (plot_spectrum_and_lc allstarW wlsW specMissing lcW =
      .error (.indexError "index 0 is out of bounds for axis 0 with size 0") ∧
    artifacts_written (plot_spectrum_and_lc allstarW wlsW specMissing lcW) = []) :=
  ⟨by decide, missing_star_index_error allstarW wlsW specMissing lcW (by decide)⟩

/-- C5: for every spectrum dataset whose star has calibrated parameters
marked invalid (masked TEFF) in the catalog, the population panel plots
the uncalibrated pipeline-fit parameters FPARAM[0][0], FPARAM[0][1],
FPARAM[0][3] in place of the calibrated ones, the quality warning is
printed, and the run still succeeds with the composite artifact written. -/
theorem invalid_params_fallback_warning (allstar : List AllStarEntry) (wls : List ℚ)
    (spec : ApogeeSpec) (lc : TessLC) (indx : ℕ) (rest : List ℕ)
    (hfind : whereEq (allstar.map (fun e => e.apogee_id)) spec.apogee_id = indx :: rest)
    (hteff : (allstar.getD indx defaultEntry).teff = none)
    (hdef : lc.time.filterMap id ≠ []) :
    ∃ fig, plot_spectrum_and_lc allstar wls spec lc = .ok fig ∧
      fig.warning = true ∧
      fig.target = (some (spec.fparam.getD 0 0), some (spec.fparam.getD 1 0),
        some (spec.fparam.getD 3 0)) ∧
      artifacts_written (plot_spectrum_and_lc allstar wls spec lc) = [fig.save_name] := by
  cases hmin : (lc.time.filterMap id).min? with
  | none => exact absurd (List.min?_eq_none_iff.mp hmin) hdef
  | some a =>
  cases hmax : (lc.time.filterMap id).max? with
  | none => exact absurd (List.max?_eq_none_iff.mp hmax) hdef
  | some b =>
  have hrun := plot_spectrum_ok allstar wls spec lc hfind hmin hmax
  have htp : targetPoint allstar spec indx =
      (true, (some (spec.fparam.getD 0 0), some (spec.fparam.getD 1 0),
        some (spec.fparam.getD 3 0))) := by
    simp only [targetPoint, hteff]
    rfl
  refine ⟨mkFigure allstar wls spec lc indx a b, hrun, ?_, ?_, ?_⟩
  · show (targetPoint allstar spec indx).1 = true
    rw [htp]
  · show (targetPoint allstar spec indx).2 = _
    rw [htp]
  · rw [hrun]
    rfl

/-- Witness for C5 at a concrete catalog whose target has masked TEFF. -/
theorem invalid_params_fallback_warning_witness :
    (whereEq (allstarInvalid.map (fun e => e.apogee_id)) specW.apogee_id = 0 :: []) ∧
    ((allstarInvalid.getD 0 defaultEntry).teff = none) ∧
    (lcW.time.filterMap id ≠ []) ∧
    (∃ fig, plot_spectrum_and_lc allstarInvalid wlsW specW lcW = .ok fig ∧
      fig.warning = true ∧
      fig.target = (some (specW.fparam.getD 0 0), some (specW.fparam.getD 1 0),
        some (specW.fparam.getD 3 0)) ∧
      artifacts_written (plot_spectrum_and_lc allstarInvalid wlsW specW lcW)
        = [fig.save_name]) :=
  ⟨by decide, by decide, by decide,
   invalid_params_fallback_warning allstarInvalid wlsW specW lcW 0 []
     (by decide) (by decide) (by decide)⟩

theorem every10Aux_getElem? {α : Type} (l : List α) :
    ∀ (c k : ℕ), (every10Aux c l)[k]? = l[c + 10 * k]? := by
  induction l with
  | nil => intro c k; simp [every10Aux]
  | cons x xs ih =>
    intro c k
    cases c with
    | zero =>
      cases k with
      | zero => simp [every10Aux]
      | succ k =>
        show (x :: every10Aux 9 xs)[k + 1]? = (x :: xs)[0 + 10 * (k + 1)]?
        rw [List.getElem?_cons_succ, ih 9 k,
          show 0 + 10 * (k + 1) = (9 + 10 * k) + 1 by omega,
          List.getElem?_cons_succ]
    | succ c =>
      show (every10Aux c xs)[k]? = (x :: xs)[(c + 1) + 10 * k]?
      rw [ih c k, show (c + 1) + 10 * k = (c + 10 * k) + 1 by omega,
        List.getElem?_cons_succ]

theorem every10_getElem? {α : Type} (l : List α) (k : ℕ) :
    (every10 l)[k]? = l[10 * k]? := by
  rw [show every10 l = every10Aux 0 l from rfl, every10Aux_getElem? l 0 k]
  norm_num

/-- C6 counterexample: on a successful composite run over a catalog of
two entries, the population panel of the composite figure receives a
single scatter point, not one per catalog entry: `[::10]` downsampling
drops entry 1. -/
theorem population_panel_not_all_entries :
    plot_spectrum_and_lc allstar2 wlsW specW lcW = .ok (getFig runCE6) ∧
    (getFig runCE6).popPoints.length = 1 ∧
    allstar2.length = 2 :=
  ⟨rfl, by decide, by decide⟩

/-- C6 (amended): on every successful composite run, the population
panel scatters every tenth catalog entry (indices 0, 10, 20, ...) as a
(temperature, surface gravity, metallicity) triple, on the fixed color
scale from metallicity -1.0 to 0.5, with the target star overlaid as the
distinguished marker point. -/
theorem population_panel_every_tenth (allstar : List AllStarEntry) (wls : List ℚ)
    (spec : ApogeeSpec) (lc : TessLC) (fig : Figure)
    (h : plot_spectrum_and_lc allstar wls spec lc = .ok fig) :
    (∀ k, fig.popPoints[k]? =
      (allstar[10 * k]?).map (fun e => (e.teff, e.logg, e.fe_h))) ∧
    fig.popVmin = -1 ∧ fig.popVmax = 1/2 ∧
    (∃ indx rest,
      whereEq (allstar.map (fun e => e.apogee_id)) spec.apogee_id = indx :: rest ∧
      fig.target = (targetPoint allstar spec indx).2) := by
  obtain ⟨indx, rest, a, b, hfind, hmn, hmx, hfig⟩ :=
    plot_spectrum_ok_inv allstar wls spec lc fig h
  subst hfig
  refine ⟨?_, rfl, rfl, indx, rest, hfind, rfl⟩
  intro k
  show (popPanelPoints allstar)[k]? = _
  unfold popPanelPoints
  rw [List.getElem?_map, every10_getElem?]

/-- Witness for C6 (amended) at a concrete successful run. -/
theorem population_panel_every_tenth_witness :
    plot_spectrum_and_lc allstar2 wlsW specW lcW = .ok (getFig runCE6) ∧
    ((∀ k, (getFig runCE6).popPoints[k]? =
      (allstar2[10 * k]?).map (fun e => (e.teff, e.logg, e.fe_h))) ∧
    (getFig runCE6).popVmin = -1 ∧ (getFig runCE6).popVmax = 1/2 ∧
    (∃ indx rest,
      whereEq (allstar2.map (fun e => e.apogee_id)) specW.apogee_id = indx :: rest ∧
      (getFig runCE6).target = (targetPoint allstar2 specW indx).2)) :=
  ⟨rfl, population_panel_every_tenth allstar2 wlsW specW lcW (getFig runCE6) rfl⟩

/-- C8: on every successful composite run the artifact filename is
derived deterministically from the stellar identifier as
`<identifier>_APOGEE_spec_TESS_lightcurve.png`; in particular identifier
V1154_Cyg yields `V1154_Cyg_APOGEE_spec_TESS_lightcurve.png`. -/
theorem save_name_deterministic (allstar : List AllStarEntry) (wls : List ℚ)
    (spec : ApogeeSpec) (lc : TessLC) (fig : Figure)
    (h : plot_spectrum_and_lc allstar wls spec lc = .ok fig) :
    fig.save_name = spec.apogee_id ++ "_APOGEE_spec_TESS_lightcurve.png" ∧
    (spec.apogee_id = "V1154_Cyg" →
      fig.save_name = "V1154_Cyg_APOGEE_spec_TESS_lightcurve.png") := by
  obtain ⟨indx, rest, a, b, hfind, hmn, hmx, hfig⟩ :=
    plot_spectrum_ok_inv allstar wls spec lc fig h
  subst hfig
  refine ⟨rfl, ?_⟩
  intro hid
  show spec.apogee_id ++ "_APOGEE_spec_TESS_lightcurve.png" = _
  rw [hid]
  decide

/-- Witness for C8 at the concrete V1154_Cyg run. -/
theorem save_name_deterministic_witness :
    plot_spectrum_and_lc allstarW wlsW specW lcW = .ok (getFig runW) ∧
    ((getFig runW).save_name = specW.apogee_id ++ "_APOGEE_spec_TESS_lightcurve.png" ∧
    (specW.apogee_id = "V1154_Cyg" →
      (getFig runW).save_name = "V1154_Cyg_APOGEE_spec_TESS_lightcurve.png")) :=
  ⟨rfl, save_name_deterministic allstarW wlsW specW lcW (getFig runW) rfl⟩

/-- C9 counterexample: on a successful run the APOGEE identifier appears
in the spectrum panel title, but the population panel title is the fixed
string with no identifier and the light-curve panel title carries the
TESS `OBJECT` header name instead, so the three panel titles do not share
the target identifier. -/
theorem titles_do_not_share_identifier :
    plot_spectrum_and_lc allstarW wlsW specW lcW = .ok (getFig runW) ∧
    containsL specW.apogee_id.data (getFig runW).title2.data = true ∧
    containsL specW.apogee_id.data (getFig runW).title1.data = false ∧
    containsL specW.apogee_id.data (getFig runW).title3.data = false :=
  ⟨rfl, by decide, by decide, by decide⟩

/-- C9 (amended): on every successful composite run, the spectrum panel
title carries the APOGEE identifier, the light-curve panel title carries
the TESS OBJECT name read from the light-curve file header, and the
population panel title is the fixed catalog caption with no target
identifier. -/
theorem panel_titles_content (allstar : List AllStarEntry) (wls : List ℚ)
    (spec : ApogeeSpec) (lc : TessLC) (fig : Figure)
    (h : plot_spectrum_and_lc allstar wls spec lc = .ok fig) :
    fig.title1 = "APOGEE Stellar Parameters - allStar" ∧
    fig.title2 = "APOGEE Spectrum - " ++ spec.apogee_id ∧
    fig.title3 = "TESS-SPOC Light Curve - " ++ lc.object := by
  obtain ⟨indx, rest, a, b, hfind, hmn, hmx, hfig⟩ :=
    plot_spectrum_ok_inv allstar wls spec lc fig h
  subst hfig
  exact ⟨rfl, rfl, rfl⟩

/-- Witness for C9 (amended) at the concrete V1154_Cyg run. -/
theorem panel_titles_content_witness :
    plot_spectrum_and_lc allstarW wlsW specW lcW = .ok (getFig runW) ∧
    ((getFig runW).title1 = "APOGEE Stellar Parameters - allStar" ∧
    (getFig runW).title2 = "APOGEE Spectrum - " ++ specW.apogee_id ∧
    (getFig runW).title3 = "TESS-SPOC Light Curve - " ++ lcW.object) :=
  ⟨rfl, panel_titles_content allstarW wlsW specW lcW (getFig runW) rfl⟩

/-- C4 counterexample: for an identifier whose TESS time-series query
returns zero rows, `plot_variable_star` fails with numpy's generic
ValueError from `np.argmin` on an empty sequence; the error message names
neither the failing stage of the workflow nor the identifier, though no
artifact is written. -/
theorem empty_tess_error_not_descriptive :
    plot_variable_star oracleCE "V1154_Cyg" =
      .error (.valueError "attempt to get argmin of an empty sequence") ∧
    containsL "V1154_Cyg".data
      "attempt to get argmin of an empty sequence".data = false ∧
    artifacts_written (plot_variable_star oracleCE "V1154_Cyg") = [] :=
  ⟨rfl, by decide, rfl⟩

/-- C4 (amended): for every identifier whose observation query and
spectrum manifest are non-empty but whose time-series query returns zero
results, `plot_variable_star` fails fast with the generic library error
raised by `np.argmin` on an empty sequence (not a descriptive error
naming the stage and identifier), and no composite artifact file is
written. -/
theorem plot_variable_star_empty_tess (o : Oracle) (apogee_id : String)
    (hm : o.apogee_products (o.apogee_query apogee_id) ≠ [])
    (ho : o.apogee_query apogee_id ≠ [])
    (ht : ∀ ra dec, o.tess_query ra dec = []) :
    plot_variable_star o apogee_id =
      .error (.valueError "attempt to get argmin of an empty sequence") ∧
    artifacts_written (plot_variable_star o apogee_id) = [] := by
  have hrun : plot_variable_star o apogee_id =
      .error (.valueError "attempt to get argmin of an empty sequence") := by
    cases hp : o.apogee_products (o.apogee_query apogee_id) with
    | nil => exact absurd hp hm
    | cons m0 ms =>
      cases hq : o.apogee_query apogee_id with
      | nil => exact absurd hq ho
      | cons obs0 os =>
        unfold plot_variable_star
        rw [hq] at hp
        rw [hq, hp]
        show (match o.tess_query obs0.s_ra obs0.s_dec with
          | [] => Except.error
              (PyError.valueError "attempt to get argmin of an empty sequence")
          | t :: ts =>
            match o.tess_products
                ((t :: ts).getD
                  (argmin ((t :: ts).map (fun r : TessObsRecord => r.distance)))
                  default) with
            | [] => Except.error
                (PyError.indexError "index 0 is out of bounds for axis 0 with size 0")
            | l0 :: _ =>
              plot_spectrum_and_lc o.allstar o.apogee_wls
                (o.open_aspcap m0.local_path) (o.open_lc l0.local_path)) = _
        rw [ht obs0.s_ra obs0.s_dec]
  refine ⟨hrun, ?_⟩
  rw [hrun]
  rfl

/-- Witness for C4 (amended) at the concrete empty-TESS oracle. -/
theorem plot_variable_star_empty_tess_witness :
    oracleCE.apogee_products (oracleCE.apogee_query "2M11361176+8117369") ≠ [] ∧
    oracleCE.apogee_query "2M11361176+8117369" ≠ [] ∧
    (∀ ra dec, oracleCE.tess_query ra dec = []) ∧
    (plot_variable_star oracleCE "2M11361176+8117369" =
      .error (.valueError "attempt to get argmin of an empty sequence") ∧
    artifacts_written (plot_variable_star oracleCE "2M11361176+8117369") = []) :=
  ⟨by decide, by decide, fun _ _ => rfl,
   plot_variable_star_empty_tess oracleCE "2M11361176+8117369"
     (by decide) (by decide) (fun _ _ => rfl)⟩

end MastNotebooks
